import Mathlib

/-!
Verification development for the dry-cleaning shop backend
(order fulfillment ledger: orders, order items, status updates,
loyalty points, notifications).

Monetary amounts (Django `DecimalField` with 2 decimal places) are
modelled as integer cents (`Int`), which is exact for the sums and
products the code performs.  Database rows become Lean structures,
model methods become Lean functions, and Django ORM writes become
explicit state passing.  HTTP 4xx outcomes and database integrity
errors are modelled with `Except String`.
-/

/-- Python falsiness of a nullable numeric field: `None` and `0` are
falsy.  Models the `if not self.unit_price:` test in
`OrderItem.save` (src/app/orders/models.py). -/
def pyFalsy : Option Int → Bool
  | none => true
  | some v => v == 0

/-- `Order.STATUS_CHOICES` from src/app/orders/models.py. -/
def STATUS_CHOICES : List String :=
  ["pending", "confirmed", "in_progress", "ready", "completed", "cancelled"]

/-- `OrderItem` row (src/app/orders/models.py).  `unit_price` is
nullable before the first save (Django leaves it unset); `quantity`
is a `PositiveIntegerField` hence `Nat`. -/
structure OrderItem where
  unit_price : Option Int
  quantity : Nat
  total_price : Int
  deriving DecidableEq, Repr

/-- `Order` row (src/app/orders/models.py), restricted to the fields
the fulfillment core reads and writes.  `items` is the reverse
foreign-key set `order.items`. -/
structure Order where
  status : String
  order_number : String
  subtotal : Int
  total_amount : Int
  confirmed_at : Option Nat
  completed_at : Option Nat
  items : List OrderItem
  deriving DecidableEq, Repr

/-- Sum of `item.total_price` over a list of items, as computed by
`sum(item.total_price for item in self.items.all())`. -/
def itemsTotal (items : List OrderItem) : Int :=
  (items.map (fun it => it.total_price)).sum

/-- `Order.calculate_total` (src/app/orders/models.py lines 62-66):
`subtotal := Σ item.total_price`; `total_amount := subtotal`. -/
def Order.calculate_total (o : Order) : Order :=
  let s := itemsTotal o.items
  { o with subtotal := s, total_amount := s }

/-- `OrderItem.save` (src/app/orders/models.py lines 80-84), item
part: capture `unit_price` from `service_price.price` when the field
is falsy, then recompute `total_price = unit_price * quantity`.
`servicePrice` is the referenced `ServicePrice.price` at save time. -/
def OrderItem.saveItem (it : OrderItem) (servicePrice : Int) : OrderItem :=
  let up := if pyFalsy it.unit_price then servicePrice else it.unit_price.getD 0
  { it with unit_price := some up, total_price := up * (it.quantity : Int) }

/-- A fresh `Order.objects.create(...)` row: Django field defaults
(status `pending`, zero totals, no items, blank number). -/
def newOrder : Order :=
  { status := "pending", order_number := "", subtotal := 0, total_amount := 0,
    confirmed_at := none, completed_at := none, items := [] }

/-- Adding an item to an order: `OrderItem.objects.create` runs
`OrderItem.save`, which saves the row and then calls
`self.order.calculate_total()`. -/
def addItemCore (o : Order) (servicePrice : Int) (qty : Nat) : Order :=
  let it := OrderItem.saveItem { unit_price := none, quantity := qty, total_price := 0 } servicePrice
  Order.calculate_total { o with items := o.items ++ [it] }

/-- Removing the `i`-th item: `item.delete()` followed by
`order.calculate_total()` (src/app/orders/views.py lines 144-146). -/
def removeItemCore (o : Order) (i : Nat) : Order :=
  Order.calculate_total { o with items := o.items.eraseIdx i }

/-- One item mutation on an order, each settling with the order's
total recomputation as in the source. -/
inductive ItemOp where
  | add (servicePrice : Int) (qty : Nat)
  | remove (i : Nat)
  deriving DecidableEq, Repr

def applyItemOp (o : Order) : ItemOp → Order
  | .add p q => addItemCore o p q
  | .remove i => removeItemCore o i

def applyItemOps (o : Order) (ops : List ItemOp) : Order :=
  ops.foldl applyItemOp o

/-- The order-total consistency invariant of the spec. -/
def orderInvariant (o : Order) : Prop :=
  o.total_amount = o.subtotal ∧ o.subtotal = itemsTotal o.items

theorem calculate_total_invariant (o : Order) :
    orderInvariant (Order.calculate_total o) := by
  constructor <;> rfl

theorem applyItemOp_invariant (o : Order) (op : ItemOp) :
    orderInvariant (applyItemOp o op) := by
  cases op <;> exact calculate_total_invariant _

theorem applyItemOps_invariant (o : Order) (ops : List ItemOp)
    (h : orderInvariant o) : orderInvariant (applyItemOps o ops) := by
  induction ops generalizing o with
  | nil => exact h
  | cons op rest ih => exact ih _ (applyItemOp_invariant o op)

/-- C1: after any sequence of item add/remove operations (each
followed by the order's total recomputation), starting from a freshly
created order, `total_amount = subtotal = Σ item.total_price`; an
order left with no items has both totals equal to zero. -/
theorem order_totals_consistent_c1 (ops : List ItemOp) :
    (applyItemOps newOrder ops).total_amount = (applyItemOps newOrder ops).subtotal ∧
    (applyItemOps newOrder ops).subtotal = itemsTotal (applyItemOps newOrder ops).items ∧
    ((applyItemOps newOrder ops).items = [] →
      (applyItemOps newOrder ops).subtotal = 0 ∧
      (applyItemOps newOrder ops).total_amount = 0) := by
  have h := applyItemOps_invariant newOrder ops ⟨rfl, rfl⟩
  refine ⟨h.1, h.2, fun he => ?_⟩
  have hs : (applyItemOps newOrder ops).subtotal = 0 := by
    rw [h.2, he]; rfl
  exact ⟨hs, by rw [h.1, hs]⟩

/-- C1 witness: the spec scenario — add qty 2 @ 15.99 and qty 1 @
25.50 (totals 57.48), then remove the first item (totals 25.50), then
remove the last (totals 0). -/
theorem order_totals_consistent_c1_witness :
    (applyItemOps newOrder [.add 1599 2, .add 2550 1]).total_amount = 5748 ∧
    (applyItemOps newOrder [.add 1599 2, .add 2550 1, .remove 0]).total_amount = 2550 ∧
    (applyItemOps newOrder [.add 1599 2, .add 2550 1, .remove 0, .remove 0]).subtotal = 0 ∧
    (applyItemOps newOrder [.add 1599 2, .add 2550 1, .remove 0, .remove 0]).total_amount = 0 := by
  refine ⟨by decide, by decide, ?_, ?_⟩
  · exact ((order_totals_consistent_c1 [.add 1599 2, .add 2550 1, .remove 0, .remove 0]).2.2 (by decide)).1
  · exact ((order_totals_consistent_c1 [.add 1599 2, .add 2550 1, .remove 0, .remove 0]).2.2 (by decide)).2

/-- The mutability guard of `add_order_item` / `remove_order_item`
(src/app/orders/views.py lines 109 and 138): the request proceeds
only when `order.status in ['received']`. -/
def canModifyOrder (status : String) : Bool :=
  status ∈ ["received"]

/-- `add_order_item` endpoint (src/app/orders/views.py lines 94-120):
status guard, then item creation and total recomputation. -/
def add_order_item (o : Order) (servicePrice : Int) (qty : Nat) : Except String Order :=
  if canModifyOrder o.status then
    Except.ok (addItemCore o servicePrice qty)
  else
    Except.error "Cannot add items to orders that are in progress or completed"

/-- `remove_order_item` endpoint (src/app/orders/views.py lines
123-148): status guard, then item lookup (404 when absent), deletion
and total recomputation. -/
def remove_order_item (o : Order) (i : Nat) : Except String Order :=
  if canModifyOrder o.status then
    if i < o.items.length then
      Except.ok (removeItemCore o i)
    else
      Except.error "Not found"
  else
    Except.error "Cannot remove items from orders that are in progress or completed"

/-- C6: the code's mutable set is `['received']`, but `received` is
not a member of the model's `STATUS_CHOICES`, so every status an
order can actually hold — including the creation default `pending` —
is rejected by both endpoints, contradicting the guard's own error
message (which claims only in-progress/completed orders are blocked)
and the claimed mutable set containing `pending`. -/
theorem item_mutation_guard_rejects_pending_c6 :
    canModifyOrder "pending" = false ∧
    STATUS_CHOICES.all (fun s => !(canModifyOrder s)) = true ∧
    add_order_item newOrder 1599 2 =
      Except.error "Cannot add items to orders that are in progress or completed" ∧
    remove_order_item newOrder 0 =
      Except.error "Cannot remove items from orders that are in progress or completed" ∧
    canModifyOrder "received" = true := by
  refine ⟨rfl, rfl, rfl, rfl, rfl⟩

/-- Order-number generation in `Order.save` (src/app/orders/models.py
lines 52-59): shop id, then the last 10 digits of the microsecond
timestamp, then the 2-digit random suffix. -/
def generateOrderNumber (shopId microTs rand : Nat) : String :=
  toString shopId ++ (toString microTs).takeRight 10 ++ toString rand

/-- `Order.save` with the database unique constraint on
`order_number`: generation happens once (only when the number is
blank) and the insert fails when the resulting number already exists.
`existing` is the set of persisted order numbers. -/
def orderSave (existing : List String) (order_number : String)
    (shopId microTs rand : Nat) : Except String String :=
  let n := if order_number = "" then generateOrderNumber shopId microTs rand else order_number
  if n ∈ existing then
    Except.error "UNIQUE constraint failed: orders_order.order_number"
  else
    Except.ok n

/-- C7 counterexample: when the freshly generated number collides
with an existing one, `Order.save` surfaces the uniqueness conflict
to the caller instead of retrying with fresh inputs. -/
theorem order_number_conflict_surfaces_c7 :
    orderSave [generateOrderNumber 1 1234567890123456 42] "" 1 1234567890123456 42 =
      Except.error "UNIQUE constraint failed: orders_order.order_number" := by
  rfl

/-- C7 (amended): a blank order number is generated exactly once from
the given shop id, timestamp and random suffix; the save succeeds
with that number when it is unused and fails with a uniqueness error
— with no retry — when it collides. -/
theorem order_number_single_generation_c7 (existing : List String)
    (shopId microTs rand : Nat) :
    (generateOrderNumber shopId microTs rand ∈ existing →
      orderSave existing "" shopId microTs rand =
        Except.error "UNIQUE constraint failed: orders_order.order_number") ∧
    (generateOrderNumber shopId microTs rand ∉ existing →
      orderSave existing "" shopId microTs rand =
        Except.ok (generateOrderNumber shopId microTs rand)) := by
  constructor <;> intro h <;> simp [orderSave, h]

/-- C7 witness: both branches of the amended statement at concrete
inputs. -/
theorem order_number_single_generation_c7_witness :
    orderSave [generateOrderNumber 7 99 10] "" 7 99 10 =
      Except.error "UNIQUE constraint failed: orders_order.order_number" ∧
    orderSave [] "" 7 99 10 = Except.ok (generateOrderNumber 7 99 10) := by
  constructor
  · exact (order_number_single_generation_c7 [generateOrderNumber 7 99 10] 7 99 10).1
      (by decide)
  · exact (order_number_single_generation_c7 [] 7 99 10).2 (by decide)

/-- `CustomerProfile` loyalty-relevant fields
(src/app/customers/models.py): cached point balance, tier, cumulative
spend in cents. -/
structure CustomerProfile where
  loyalty_points : Int
  membership_tier : String
  total_spent : Int
  deriving DecidableEq, Repr

/-- `LoyaltyTransaction` row (src/app/customers/models.py lines
302-346): type, signed point delta, description. -/
structure LoyaltyTransaction where
  type : String
  points : Int
  description : String
  deriving DecidableEq, Repr

/-- A customer's loyalty state: the cached profile and the customer's
`LoyaltyTransaction` rows (newest first). -/
structure LoyaltyState where
  profile : CustomerProfile
  ledger : List LoyaltyTransaction
  deriving DecidableEq, Repr

/-- Signed sum of the ledger, `Σ LoyaltyTransaction.points`. -/
def ledgerSum (l : List LoyaltyTransaction) : Int :=
  (l.map (fun t => t.points)).sum

/-- `CustomerProfile.update_membership_tier`
(src/app/customers/models.py lines 146-156), thresholds in cents. -/
def update_membership_tier (p : CustomerProfile) : CustomerProfile :=
  if p.total_spent ≥ 100000 then { p with membership_tier := "platinum" }
  else if p.total_spent ≥ 50000 then { p with membership_tier := "gold" }
  else if p.total_spent ≥ 20000 then { p with membership_tier := "silver" }
  else { p with membership_tier := "bronze" }

/-- `CustomerProfile.add_loyalty_points` (src/app/customers/models.py
lines 158-169): increase the cached balance and append an `earned`
transaction with the same delta. -/
def add_loyalty_points (st : LoyaltyState) (points : Int) (description : String) : LoyaltyState :=
  { profile := { st.profile with loyalty_points := st.profile.loyalty_points + points },
    ledger := { type := "earned", points := points, description := description } :: st.ledger }

/-- `CustomerProfile.redeem_loyalty_points`
(src/app/customers/models.py lines 171-185): when the cached balance
covers the request, decrement it and append a `redeemed` transaction
with delta `-points`, returning `true`; otherwise leave everything
unchanged and return `false`. -/
def redeem_loyalty_points (st : LoyaltyState) (points : Int) (description : String) :
    LoyaltyState × Bool :=
  if st.profile.loyalty_points ≥ points then
    ({ profile := { st.profile with loyalty_points := st.profile.loyalty_points - points },
       ledger := { type := "redeemed", points := -points, description := description } :: st.ledger },
     true)
  else
    (st, false)

/-- One earn or redeem call. -/
inductive LoyaltyOp where
  | earn (points : Int) (description : String)
  | redeem (points : Int) (description : String)
  deriving DecidableEq, Repr

def applyLoyaltyOp (st : LoyaltyState) : LoyaltyOp → LoyaltyState
  | .earn p d => add_loyalty_points st p d
  | .redeem p d => (redeem_loyalty_points st p d).1

def applyLoyaltyOps (st : LoyaltyState) (ops : List LoyaltyOp) : LoyaltyState :=
  ops.foldl applyLoyaltyOp st

/-- A fresh `CustomerProfile` row: balance 0 (field default), tier
bronze, nothing spent, no transactions. -/
def freshLoyaltyState : LoyaltyState :=
  { profile := { loyalty_points := 0, membership_tier := "bronze", total_spent := 0 },
    ledger := [] }

theorem ledgerSum_cons (t : LoyaltyTransaction) (l : List LoyaltyTransaction) :
    ledgerSum (t :: l) = t.points + ledgerSum l := by
  simp [ledgerSum]

theorem applyLoyaltyOp_cache (st : LoyaltyState) (op : LoyaltyOp)
    (h : st.profile.loyalty_points = ledgerSum st.ledger) :
    (applyLoyaltyOp st op).profile.loyalty_points = ledgerSum (applyLoyaltyOp st op).ledger := by
  cases op with
  | earn p d =>
    simp [applyLoyaltyOp, add_loyalty_points, ledgerSum_cons, h]
    omega
  | redeem p d =>
    simp only [applyLoyaltyOp, redeem_loyalty_points]
    split
    · simp only [ledgerSum_cons]
      omega
    · exact h

theorem applyLoyaltyOps_cache (st : LoyaltyState) (ops : List LoyaltyOp)
    (h : st.profile.loyalty_points = ledgerSum st.ledger) :
    (applyLoyaltyOps st ops).profile.loyalty_points =
      ledgerSum (applyLoyaltyOps st ops).ledger := by
  induction ops generalizing st with
  | nil => exact h
  | cons op rest ih => exact ih _ (applyLoyaltyOp_cache st op h)

/-- C2: starting from a fresh profile, after any sequence of earn and
redeem calls the cached balance equals the signed sum of the ledger;
each earn appends one `earned` transaction with delta `+points` and
increases the cache by `points`. -/
theorem loyalty_cache_equals_ledger_c2 (ops : List LoyaltyOp) :
    (applyLoyaltyOps freshLoyaltyState ops).profile.loyalty_points =
      ledgerSum (applyLoyaltyOps freshLoyaltyState ops).ledger ∧
    (∀ st : LoyaltyState, ∀ p : Int, ∀ d : String,
      (add_loyalty_points st p d).profile.loyalty_points = st.profile.loyalty_points + p ∧
      (add_loyalty_points st p d).ledger =
        { type := "earned", points := p, description := d } :: st.ledger) ∧
    (∀ st : LoyaltyState, ∀ p : Int, ∀ d : String,
      p ≤ st.profile.loyalty_points →
        (redeem_loyalty_points st p d).1.profile.loyalty_points =
          st.profile.loyalty_points - p ∧
        (redeem_loyalty_points st p d).1.ledger =
          { type := "redeemed", points := -p, description := d } :: st.ledger) := by
  refine ⟨applyLoyaltyOps_cache freshLoyaltyState ops rfl,
    fun st p d => ⟨rfl, rfl⟩, fun st p d hle => ?_⟩
  have hb : st.profile.loyalty_points ≥ p := hle
  simp [redeem_loyalty_points, hb]

/-- C2 witness: earn 30 then earn 12 then redeem 25 from a fresh
profile leaves the cache at 17 and equal to the ledger sum; a
successful redeem of 25 from balance 42 appends the `-25`
transaction. -/
theorem loyalty_cache_equals_ledger_c2_witness :
    (applyLoyaltyOps freshLoyaltyState
      [.earn 30 "a", .earn 12 "b", .redeem 25 "c"]).profile.loyalty_points = 17 ∧
    (applyLoyaltyOps freshLoyaltyState
      [.earn 30 "a", .earn 12 "b", .redeem 25 "c"]).profile.loyalty_points =
      ledgerSum (applyLoyaltyOps freshLoyaltyState
        [.earn 30 "a", .earn 12 "b", .redeem 25 "c"]).ledger ∧
    (redeem_loyalty_points (applyLoyaltyOps freshLoyaltyState
      [.earn 30 "a", .earn 12 "b"]) 25 "c").1.ledger =
      { type := "redeemed", points := -25, description := "c" } ::
        (applyLoyaltyOps freshLoyaltyState [.earn 30 "a", .earn 12 "b"]).ledger := by
  have h := loyalty_cache_equals_ledger_c2 [.earn 30 "a", .earn 12 "b", .redeem 25 "c"]
  have hr := h.2.2 (applyLoyaltyOps freshLoyaltyState [.earn 30 "a", .earn 12 "b"])
    25 "c" (by decide)
  exact ⟨by decide, h.1, hr.2⟩

/-- Folding a list of redeem requests through
`redeem_loyalty_points`, keeping only the state. -/
def applyRedeems (st : LoyaltyState) (reqs : List (Int × String)) : LoyaltyState :=
  reqs.foldl (fun s r => (redeem_loyalty_points s r.1 r.2).1) st

theorem redeem_nonneg_step (st : LoyaltyState) (p : Int) (d : String)
    (h : 0 ≤ st.profile.loyalty_points) :
    0 ≤ (redeem_loyalty_points st p d).1.profile.loyalty_points := by
  simp only [redeem_loyalty_points]
  split
  · simp only
    omega
  · exact h

theorem applyRedeems_nonneg (st : LoyaltyState) (reqs : List (Int × String))
    (h : 0 ≤ st.profile.loyalty_points) :
    0 ≤ (applyRedeems st reqs).profile.loyalty_points := by
  induction reqs generalizing st with
  | nil => exact h
  | cons r rest ih => exact ih _ (redeem_nonneg_step st r.1 r.2 h)

/-- C5: for a positive request, redeem fails and leaves the cached
balance and the ledger unchanged exactly when the request exceeds the
balance; on success it decrements the balance by exactly the request
and appends the `-points` transaction; and from a non-negative
balance no sequence of redeem calls ever drives the balance
negative. -/
theorem redeem_insufficient_balance_c5 (st : LoyaltyState) (p : Int) (d : String)
    (reqs : List (Int × String)) (_hp : 0 < p)
    (hnn : 0 ≤ st.profile.loyalty_points) :
    (st.profile.loyalty_points < p → redeem_loyalty_points st p d = (st, false)) ∧
    (p ≤ st.profile.loyalty_points →
      (redeem_loyalty_points st p d).2 = true ∧
      (redeem_loyalty_points st p d).1.profile.loyalty_points =
        st.profile.loyalty_points - p ∧
      (redeem_loyalty_points st p d).1.ledger =
        { type := "redeemed", points := -p, description := d } :: st.ledger) ∧
    0 ≤ (applyRedeems st reqs).profile.loyalty_points := by
  refine ⟨fun hlt => ?_, fun hle => ?_, applyRedeems_nonneg st reqs hnn⟩
  · have hb : ¬ (st.profile.loyalty_points ≥ p) := by omega
    simp [redeem_loyalty_points, hb]
  · have hb : st.profile.loyalty_points ≥ p := hle
    simp [redeem_loyalty_points, hb]

/-- C5 witness: balance 50, redeem 30 succeeds leaving 20; redeem 30
again fails and mutates nothing; a redeem sequence from balance 50
stays non-negative. -/
theorem redeem_insufficient_balance_c5_witness :
    (redeem_loyalty_points (applyRedeems { profile := { loyalty_points := 50, membership_tier := "bronze", total_spent := 0 }, ledger := [] } [(30, "x")]) 30 "y").2 = false ∧
    (applyRedeems { profile := { loyalty_points := 50, membership_tier := "bronze", total_spent := 0 }, ledger := [] } [(30, "x"), (30, "y")]).profile.loyalty_points = 20 ∧
    0 ≤ (applyRedeems { profile := { loyalty_points := 50, membership_tier := "bronze", total_spent := 0 }, ledger := [] } [(30, "x"), (30, "y"), (25, "z")]).profile.loyalty_points := by
  have h20 := redeem_insufficient_balance_c5
    (applyRedeems { profile := { loyalty_points := 50, membership_tier := "bronze", total_spent := 0 }, ledger := [] } [(30, "x")])
    30 "y" [] (by decide) (by decide)
  have hfail := h20.1 (by decide)
  refine ⟨?_, by decide, ?_⟩
  · rw [hfail]
  · exact (redeem_insufficient_balance_c5
      { profile := { loyalty_points := 50, membership_tier := "bronze", total_spent := 0 }, ledger := [] }
      1 "w" [(30, "x"), (30, "y"), (25, "z")] (by decide) (by decide)).2.2

/-- `OrderStatusHistory` row (src/app/orders/models.py lines 93-104),
restricted to the fields the update path writes. -/
structure StatusHistoryRow where
  status : String
  notes : String
  deriving DecidableEq, Repr

/-- The state touched (or, for loyalty, provably untouched) by a
status update: the order, its history rows (newest first), and the
ordering customer's loyalty profile and ledger. -/
structure FulfillmentState where
  order : Order
  history : List StatusHistoryRow
  profile : CustomerProfile
  ledger : List LoyaltyTransaction
  deriving DecidableEq, Repr

/-- `OrderStatusUpdateSerializer.update`
(src/app/orders/serializers.py lines 105-130): store the new status;
when it differs from the old one append a history row and set
`confirmed_at` / `completed_at` on entering `confirmed` /
`completed`.  Nothing else is touched. -/
def applyStatusUpdate (st : FulfillmentState) (newStatus notes : String) (now : Nat) :
    FulfillmentState :=
  let old := st.order.status
  let o1 := { st.order with status := newStatus }
  if old = newStatus then
    { st with order := o1 }
  else
    let o2 :=
      if newStatus = "confirmed" then { o1 with confirmed_at := some now }
      else if newStatus = "completed" then { o1 with completed_at := some now }
      else o1
    let row : StatusHistoryRow := { status := newStatus, notes := notes }
    { st with order := o2, history := row :: st.history }

/-- The status-update request: DRF validates the `status` field
against the model's choices before `update` runs; an absent field
falls back to the current status (`validated_data.get`). -/
def updateOrderStatus (st : FulfillmentState) (newStatus : Option String)
    (notes : String) (now : Nat) : Except String FulfillmentState :=
  let ns := newStatus.getD st.order.status
  if ns ∈ STATUS_CHOICES then
    Except.ok (applyStatusUpdate st ns notes now)
  else
    Except.error "not a valid choice"

/-- A concrete order in `pending` awaiting a status update. -/
def pendingFulfillment : FulfillmentState :=
  { order := newOrder, history := [],
    profile := { loyalty_points := 0, membership_tier := "bronze", total_spent := 0 },
    ledger := [] }

/-- A concrete order in `in_progress` with total 100.00 whose
customer holds 50 points. -/
def inProgressFulfillment : FulfillmentState :=
  { order := { newOrder with status := "in_progress", subtotal := 10000, total_amount := 10000 },
    history := [],
    profile := { loyalty_points := 50, membership_tier := "bronze", total_spent := 0 },
    ledger := [] }

/-- A concrete order in `ready` awaiting completion. -/
def readyFulfillment : FulfillmentState :=
  { order := { newOrder with status := "ready" }, history := [],
    profile := { loyalty_points := 0, membership_tier := "bronze", total_spent := 0 },
    ledger := [] }

/-- C4 counterexample: updating to `completed` from `pending` does
not fail — the update succeeds and even stamps `completed_at`, so no
`InvalidTransition` rejection exists. -/
theorem status_update_pending_completed_succeeds_c4 :
    (updateOrderStatus pendingFulfillment (some "completed") "" 5).isOk = true ∧
    (applyStatusUpdate pendingFulfillment "completed" "" 5).order.completed_at = some 5 := by
  exact ⟨rfl, rfl⟩

/-- C4 (amended): the status-update operation performs no
reachability check — every status in the model's choices is accepted
from every current status (in particular `completed` from `pending`
succeeds); when the new status differs from the old a history row is
appended, and entering `completed` / `confirmed` stamps the
respective timestamp, so `completed` from `ready` succeeds and sets
`completed_at`. -/
theorem status_update_no_transition_validation_c4 (st : FulfillmentState)
    (ns notes : String) (now : Nat) (h : ns ∈ STATUS_CHOICES) :
    (updateOrderStatus st (some ns) notes now).isOk = true ∧
    updateOrderStatus st (some ns) notes now =
      Except.ok (applyStatusUpdate st ns notes now) ∧
    (st.order.status ≠ ns →
      (applyStatusUpdate st ns notes now).history =
        { status := ns, notes := notes } :: st.history) ∧
    (st.order.status ≠ "completed" →
      (applyStatusUpdate st "completed" notes now).order.completed_at = some now) ∧
    (st.order.status ≠ "confirmed" →
      (applyStatusUpdate st "confirmed" notes now).order.confirmed_at = some now) := by
  have heq : updateOrderStatus st (some ns) notes now =
      Except.ok (applyStatusUpdate st ns notes now) := by
    simp [updateOrderStatus, h]
  refine ⟨by rw [heq]; rfl, heq, ?_, ?_, ?_⟩
  · intro hne
    simp only [applyStatusUpdate]
    rw [if_neg hne]
  · intro hne
    simp only [applyStatusUpdate]
    rw [if_neg hne]
    simp
  · intro hne
    simp only [applyStatusUpdate]
    rw [if_neg hne]
    simp

/-- C4 witness: from `ready`, updating to `completed` succeeds and
sets `completed_at`; from `pending`, updating to `confirmed` appends
a history row. -/
theorem status_update_no_transition_validation_c4_witness :
    (updateOrderStatus readyFulfillment (some "completed") "" 9).isOk = true ∧
    (applyStatusUpdate readyFulfillment "completed" "" 9).order.completed_at = some 9 ∧
    (applyStatusUpdate pendingFulfillment "confirmed" "note" 3).history =
      [{ status := "confirmed", notes := "note" }] := by
  have h1 := status_update_no_transition_validation_c4 readyFulfillment "completed" "" 9 (by decide)
  have h2 := status_update_no_transition_validation_c4 pendingFulfillment "confirmed" "note" 3 (by decide)
  exact ⟨h1.1, h1.2.2.2.1 (by decide), h2.2.2.1 (by decide)⟩

/-- C3 counterexample: completing an order from `in_progress` with
total 100.00 leaves the customer's loyalty balance at 50 instead of
crediting 100 points, records no loyalty transaction, and leaves the
membership tier and cumulative spend untouched. -/
theorem status_update_awards_no_points_c3 :
    (applyStatusUpdate inProgressFulfillment "completed" "" 7).profile.loyalty_points = 50 ∧
    ¬ ((applyStatusUpdate inProgressFulfillment "completed" "" 7).profile.loyalty_points = 150) ∧
    (applyStatusUpdate inProgressFulfillment "completed" "" 7).ledger = [] ∧
    (applyStatusUpdate inProgressFulfillment "completed" "" 7).profile.membership_tier = "bronze" ∧
    (applyStatusUpdate inProgressFulfillment "completed" "" 7).profile.total_spent = 0 ∧
    inProgressFulfillment.order.total_amount = 10000 := by
  refine ⟨rfl, by decide, rfl, rfl, rfl, rfl⟩

/-- C3 (amended): a status update — including one entering
`completed` — never touches the customer's loyalty profile (balance,
tier, cumulative spend) or transaction ledger; entering `completed`
only stores the status, appends a history row and sets
`completed_at`. -/
theorem status_update_loyalty_frame_c3 (st : FulfillmentState)
    (ns notes : String) (now : Nat) :
    (applyStatusUpdate st ns notes now).profile = st.profile ∧
    (applyStatusUpdate st ns notes now).ledger = st.ledger := by
  simp only [applyStatusUpdate]
  split <;> exact ⟨rfl, rfl⟩

/-- `validate_price` (src/app/core/validators.py lines 30-38): a
price passes validation exactly when it is greater than 0. -/
def validate_price (v : Int) : Bool :=
  decide (0 < v)

theorem saveItem_keeps_captured_price (it : OrderItem) (q p : Int) (hp : p ≠ 0)
    (h1 : it.unit_price = some p) :
    OrderItem.saveItem it q =
      { it with unit_price := some p, total_price := p * (it.quantity : Int) } := by
  simp [OrderItem.saveItem, pyFalsy, h1, hp]

theorem saveItem_fold_keeps_captured_price (p : Int) (qty : Nat) (hp : p ≠ 0)
    (qs : List Int) (it : OrderItem)
    (h : it.unit_price = some p ∧ it.quantity = qty ∧ it.total_price = p * (qty : Int)) :
    (qs.foldl OrderItem.saveItem it).unit_price = some p ∧
    (qs.foldl OrderItem.saveItem it).quantity = qty ∧
    (qs.foldl OrderItem.saveItem it).total_price = p * (qty : Int) := by
  induction qs generalizing it with
  | nil => exact h
  | cons q rest ih =>
    have hstep := saveItem_keeps_captured_price it q p hp h.1
    refine ih (OrderItem.saveItem it q) ?_
    rw [hstep]
    exact ⟨rfl, h.2.1, by rw [h.2.1]⟩

/-- C9: an order item's unit price is captured from the referenced
service price (a value passing `validate_price`, hence positive) at
the time the item is added; any number of later saves against
arbitrarily changed service prices leaves `unit_price` and
`total_price` unchanged. -/
theorem unit_price_captured_at_add_time_c9 (qty : Nat) (p : Int) (qs : List Int)
    (hp : validate_price p = true) :
    (OrderItem.saveItem { unit_price := none, quantity := qty, total_price := 0 } p).unit_price = some p ∧
    (OrderItem.saveItem { unit_price := none, quantity := qty, total_price := 0 } p).total_price = p * (qty : Int) ∧
    (qs.foldl OrderItem.saveItem
      (OrderItem.saveItem { unit_price := none, quantity := qty, total_price := 0 } p)).unit_price = some p ∧
    (qs.foldl OrderItem.saveItem
      (OrderItem.saveItem { unit_price := none, quantity := qty, total_price := 0 } p)).total_price = p * (qty : Int) := by
  have hpos : (0 : Int) < p := by simpa [validate_price] using hp
  have hne : p ≠ 0 := (ne_of_gt hpos)
  have hit0 : OrderItem.saveItem { unit_price := none, quantity := qty, total_price := 0 } p =
      { unit_price := some p, quantity := qty, total_price := p * (qty : Int) } := by
    simp [OrderItem.saveItem, pyFalsy]
  have hfold := saveItem_fold_keeps_captured_price p qty hne qs
    (OrderItem.saveItem { unit_price := none, quantity := qty, total_price := 0 } p)
    (by rw [hit0]; exact ⟨rfl, rfl, rfl⟩)
  exact ⟨by rw [hit0], by rw [hit0], hfold.1, hfold.2.2⟩

/-- C9 witness: item added at price 15.99 with quantity 2; the
service price then changes to 99.99 and 0.01 and the item is re-saved
each time; the unit price stays 15.99 and the total stays 31.98. -/
theorem unit_price_captured_at_add_time_c9_witness :
    ([9999, 1].foldl OrderItem.saveItem
      (OrderItem.saveItem { unit_price := none, quantity := 2, total_price := 0 } 1599)).unit_price = some 1599 ∧
    ([9999, 1].foldl OrderItem.saveItem
      (OrderItem.saveItem { unit_price := none, quantity := 2, total_price := 0 } 1599)).total_price = 3198 := by
  have h := unit_price_captured_at_add_time_c9 2 1599 [9999, 1] (by decide)
  exact ⟨h.2.2.1, h.2.2.2⟩

/-- Core of `django.utils.html.strip_tags` as used by
`NotificationService.create_notification`: drop everything between
`<` and `>`. -/
def stripTagsAux : List Char → Bool → List Char
  | [], _ => []
  | c :: cs, true => stripTagsAux cs (c != '>')
  | c :: cs, false =>
    if c = '<' then stripTagsAux cs true else c :: stripTagsAux cs false

def strip_tags (s : String) : String :=
  String.mk (stripTagsAux s.data false)

/-- `NotificationPreference` row (src/app/notifications/models.py):
one boolean gate per notification type plus delivery-frequency
flags. -/
structure NotificationPreference where
  order_notifications : Bool
  loyalty_notifications : Bool
  promotion_notifications : Bool
  reminder_notifications : Bool
  system_notifications : Bool
  daily_digest : Bool
  immediate_notifications : Bool
  deriving DecidableEq, Repr

/-- The defaults used by
`NotificationService.get_user_preferences` when creating a missing
preference row (src/app/notifications/services.py lines 226-240). -/
def defaultPreferences : NotificationPreference :=
  { order_notifications := true, loyalty_notifications := true,
    promotion_notifications := true, reminder_notifications := true,
    system_notifications := true, daily_digest := false,
    immediate_notifications := true }

/-- `NotificationService._should_send_notification`
(src/app/notifications/services.py lines 242-254): the type-to-gate
mapping, with `welcome` always sent and unknown types defaulting to
sent (`dict.get(type, True)`). -/
def should_send_notification (prefs : NotificationPreference) (ty : String) : Bool :=
  if ty = "order_status" then prefs.order_notifications
  else if ty = "loyalty_points" then prefs.loyalty_notifications
  else if ty = "promotion" then prefs.promotion_notifications
  else if ty = "reminder" then prefs.reminder_notifications
  else if ty = "system" then prefs.system_notifications
  else if ty = "welcome" then true
  else true

/-- `NotificationTemplate` row (src/app/notifications/models.py). -/
structure NotificationTemplate where
  name : String
  type : String
  title_template : String
  message_template : String
  priority : String
  is_active : Bool
  deriving DecidableEq, Repr

/-- `Notification` row, restricted to the fields
`create_notification` writes. -/
structure Notification where
  recipient : Nat
  title : String
  message : String
  priority : String
  status : String
  deriving DecidableEq, Repr

/-- `NotificationService.create_notification`
(src/app/notifications/services.py lines 20-59).  `db` is the
notification table; `dbOk` models whether the wrapped body raises
(the `except` clause maps any exception to `None`).  Returns the
`Notification | None` result and the resulting table: a gated type or
a failure yields `(none, db)` — no record, no exception. -/
def create_notification (db : List Notification) (recipient : Nat)
    (title message priority : String) (template : Option NotificationTemplate)
    (prefs : NotificationPreference) (dbOk : Bool) :
    Option Notification × List Notification :=
  let gated :=
    match template with
    | some t => !(should_send_notification prefs t.type)
    | none => false
  if gated then (none, db)
  else if dbOk then
    let n : Notification :=
      { recipient := recipient, title := (strip_tags title).take 200,
        message := strip_tags message, priority := priority, status := "unread" }
    (some n, n :: db)
  else (none, db)

/-- One target of a batch: the user, their preferences, and whether
their individual creation would raise. -/
structure BatchRecipient where
  user : Nat
  prefs : NotificationPreference
  dbOk : Bool
  deriving DecidableEq, Repr

/-- `NotificationBatch` row result fields
(src/app/notifications/models.py / services.py lines 120-156). -/
structure NotificationBatch where
  title : String
  message : String
  is_sent : Bool
  sent_count : Nat
  failed_count : Nat
  sent_at : Option Nat
  deriving DecidableEq, Repr

/-- One iteration of the send loop in
`create_batch_notifications`: attempt the individual creation and
bump the matching counter. -/
def batchStep (tmpl : NotificationTemplate) (rtitle rmessage : String)
    (acc : Nat × Nat × List Notification) (r : BatchRecipient) :
    Nat × Nat × List Notification :=
  let res := create_notification acc.2.2 r.user rtitle rmessage tmpl.priority
    (some tmpl) r.prefs r.dbOk
  match res.1 with
  | some _ => (acc.1 + 1, acc.2.1, res.2)
  | none => (acc.1, acc.2.1 + 1, res.2)

/-- `NotificationService.create_batch_notifications`
(src/app/notifications/services.py lines 97-159) after template
lookup and rendering: loop over the recipients counting successes and
failures, then mark the batch sent and stamp `sent_at`
unconditionally. -/
def create_batch_notifications (tmpl : NotificationTemplate)
    (rtitle rmessage : String) (recipients : List BatchRecipient)
    (now : Nat) (db : List Notification) :
    NotificationBatch × List Notification :=
  let fin := recipients.foldl (batchStep tmpl rtitle rmessage) ((0 : Nat), (0 : Nat), db)
  ({ title := rtitle, message := rmessage, is_sent := true,
     sent_count := fin.1, failed_count := fin.2.1, sent_at := some now }, fin.2.2)

/-- A recipient for whom the individual creation returns `None`:
either their preference gates the template's type or the creation
raises. -/
def notifFails (tmpl : NotificationTemplate) (r : BatchRecipient) : Bool :=
  !(should_send_notification r.prefs tmpl.type) || !r.dbOk

theorem create_notification_isNone (db : List Notification) (recipient : Nat)
    (title message priority : String) (tmpl : NotificationTemplate)
    (prefs : NotificationPreference) (dbOk : Bool) :
    ((create_notification db recipient title message priority (some tmpl) prefs dbOk).1).isNone
      = (!(should_send_notification prefs tmpl.type) || !dbOk) := by
  by_cases hs : should_send_notification prefs tmpl.type <;>
    cases dbOk <;> simp [create_notification, hs]

theorem batch_fold_counts (tmpl : NotificationTemplate) (rtitle rmessage : String)
    (recips : List BatchRecipient) :
    ∀ (s f : Nat) (db : List Notification),
      (recips.foldl (batchStep tmpl rtitle rmessage) (s, f, db)).1
        = s + (recips.filter (fun r => !(notifFails tmpl r))).length ∧
      (recips.foldl (batchStep tmpl rtitle rmessage) (s, f, db)).2.1
        = f + (recips.filter (notifFails tmpl)).length := by
  induction recips with
  | nil => intro s f db; simp
  | cons r rest ih =>
    intro s f db
    cases hres : (create_notification db r.user rtitle rmessage tmpl.priority
        (some tmpl) r.prefs r.dbOk).1 with
    | none =>
      have hfail : notifFails tmpl r = true := by
        have := create_notification_isNone db r.user rtitle rmessage tmpl.priority
          tmpl r.prefs r.dbOk
        rw [hres] at this
        simpa [notifFails] using this.symm
      have hstep : batchStep tmpl rtitle rmessage (s, f, db) r =
          (s, f + 1, (create_notification db r.user rtitle rmessage tmpl.priority
            (some tmpl) r.prefs r.dbOk).2) := by
        simp [batchStep, hres]
      simp only [List.foldl_cons, hstep, List.filter_cons, hfail]
      have hrest := ih s (f + 1)
        ((create_notification db r.user rtitle rmessage tmpl.priority
          (some tmpl) r.prefs r.dbOk).2)
      refine ⟨?_, ?_⟩
      · rw [hrest.1]
        simp [hfail]
      · rw [hrest.2]
        simp [hfail]
        omega
    | some n =>
      have hok : notifFails tmpl r = false := by
        have := create_notification_isNone db r.user rtitle rmessage tmpl.priority
          tmpl r.prefs r.dbOk
        rw [hres] at this
        simpa [notifFails] using this.symm
      have hstep : batchStep tmpl rtitle rmessage (s, f, db) r =
          (s + 1, f, (create_notification db r.user rtitle rmessage tmpl.priority
            (some tmpl) r.prefs r.dbOk).2) := by
        simp [batchStep, hres]
      simp only [List.foldl_cons, hstep, List.filter_cons, hok]
      have hrest := ih (s + 1) f
        ((create_notification db r.user rtitle rmessage tmpl.priority
          (some tmpl) r.prefs r.dbOk).2)
      refine ⟨?_, ?_⟩
      · rw [hrest.1]
        simp [hok]
        omega
      · rw [hrest.2]
        simp [hok]

theorem filter_length_split {α : Type} (p : α → Bool) (l : List α) :
    (l.filter p).length + (l.filter (fun a => !(p a))).length = l.length := by
  induction l with
  | nil => rfl
  | cons a l ih =>
    by_cases h : p a <;> simp [List.filter_cons, h] <;> omega

/-- C10: `create_notification` returns a notification or `None` and
never propagates a failure — a raised exception (modelled by
`dbOk = false`) yields `(none, db)` exactly like a preference-gated
skip, making the two indistinguishable to the caller; in a batch,
every `None` increments `failed_count`, the counters sum to the
number of recipients, and the batch is still marked sent with
`sent_at` stamped. -/
theorem notification_failures_swallowed_c10
    (db : List Notification) (recipient : Nat) (title message priority : String)
    (template : Option NotificationTemplate) (prefs : NotificationPreference)
    (tmpl : NotificationTemplate) (rtitle rmessage : String)
    (recips : List BatchRecipient) (now : Nat) :
    create_notification db recipient title message priority template prefs false = (none, db) ∧
    (tmpl.type = "promotion" → prefs.promotion_notifications = false →
      create_notification db recipient title message priority (some tmpl) prefs true =
        create_notification db recipient title message priority (some tmpl) prefs false) ∧
    (create_batch_notifications tmpl rtitle rmessage recips now db).1.is_sent = true ∧
    (create_batch_notifications tmpl rtitle rmessage recips now db).1.sent_at = some now ∧
    (create_batch_notifications tmpl rtitle rmessage recips now db).1.sent_count +
        (create_batch_notifications tmpl rtitle rmessage recips now db).1.failed_count
      = recips.length ∧
    (create_batch_notifications tmpl rtitle rmessage recips now db).1.failed_count
      = (recips.filter (notifFails tmpl)).length := by
  have hc := batch_fold_counts tmpl rtitle rmessage recips 0 0 db
  have hsent : (create_batch_notifications tmpl rtitle rmessage recips now db).1.sent_count
      = (recips.foldl (batchStep tmpl rtitle rmessage) (0, 0, db)).1 := rfl
  have hfailed : (create_batch_notifications tmpl rtitle rmessage recips now db).1.failed_count
      = (recips.foldl (batchStep tmpl rtitle rmessage) (0, 0, db)).2.1 := rfl
  have hsplit := filter_length_split (notifFails tmpl) recips
  refine ⟨?_, ?_, rfl, rfl, ?_, ?_⟩
  · cases template with
    | none => simp [create_notification]
    | some t =>
      by_cases hs : should_send_notification prefs t.type <;>
        simp [create_notification, hs]
  · intro h1 h2
    simp [create_notification, should_send_notification, h1, h2]
  · rw [hsent, hfailed, hc.1, hc.2]
    omega
  · rw [hfailed, hc.2]
    omega

/-- A `promotion`-typed template and preferences with
`promotion_notifications` disabled. -/
def promoTemplate : NotificationTemplate :=
  { name := "promo", type := "promotion", title_template := "t",
    message_template := "m", priority := "normal", is_active := true }

def promoOffPrefs : NotificationPreference :=
  { defaultPreferences with promotion_notifications := false }

/-- A `welcome`-typed template. -/
def welcomeTemplate : NotificationTemplate :=
  { name := "welcome", type := "welcome", title_template := "t",
    message_template := "m", priority := "normal", is_active := true }

/-- C10 witness: a failing creation yields `None`; a gated creation
is identical to a failing one; a batch over one gated, one failing
and one deliverable recipient reports 1 sent / 2 failed and is still
marked sent. -/
theorem notification_failures_swallowed_c10_witness :
    create_notification [] 1 "hi" "msg" "normal" none defaultPreferences false = (none, []) ∧
    create_notification [] 1 "hi" "msg" "normal" (some promoTemplate) promoOffPrefs true =
      create_notification [] 1 "hi" "msg" "normal" (some promoTemplate) promoOffPrefs false ∧
    (create_batch_notifications promoTemplate "hi" "msg"
      [{ user := 1, prefs := promoOffPrefs, dbOk := true },
       { user := 2, prefs := defaultPreferences, dbOk := false },
       { user := 3, prefs := defaultPreferences, dbOk := true }] 42 []).1.is_sent = true ∧
    (create_batch_notifications promoTemplate "hi" "msg"
      [{ user := 1, prefs := promoOffPrefs, dbOk := true },
       { user := 2, prefs := defaultPreferences, dbOk := false },
       { user := 3, prefs := defaultPreferences, dbOk := true }] 42 []).1.sent_at = some 42 ∧
    (create_batch_notifications promoTemplate "hi" "msg"
      [{ user := 1, prefs := promoOffPrefs, dbOk := true },
       { user := 2, prefs := defaultPreferences, dbOk := false },
       { user := 3, prefs := defaultPreferences, dbOk := true }] 42 []).1.failed_count = 2 := by
  have h := notification_failures_swallowed_c10 [] 1 "hi" "msg" "normal"
    (some promoTemplate) promoOffPrefs promoTemplate "hi" "msg"
    [{ user := 1, prefs := promoOffPrefs, dbOk := true },
     { user := 2, prefs := defaultPreferences, dbOk := false },
     { user := 3, prefs := defaultPreferences, dbOk := true }] 42
  refine ⟨h.1, h.2.1 rfl rfl, h.2.2.1, h.2.2.2.1, ?_⟩
  rw [h.2.2.2.2.2]
  decide

/-- C8: a notification created from a `promotion`-typed template is
skipped (returns `None`, no record written) when the recipient's
`promotion_notifications` preference is off, while a `welcome`-typed
template always passes preference gating and writes the record for
any preference settings. -/
theorem welcome_bypasses_preference_gating_c8 (db : List Notification)
    (recipient : Nat) (title message : String) (tmpl : NotificationTemplate)
    (prefs : NotificationPreference) (dbOk : Bool) :
    (tmpl.type = "promotion" → prefs.promotion_notifications = false →
      create_notification db recipient title message tmpl.priority (some tmpl) prefs dbOk
        = (none, db)) ∧
    (tmpl.type = "welcome" →
      create_notification db recipient title message tmpl.priority (some tmpl) prefs true
        = (some { recipient := recipient, title := (strip_tags title).take 200,
                  message := strip_tags message, priority := tmpl.priority,
                  status := "unread" },
           { recipient := recipient, title := (strip_tags title).take 200,
             message := strip_tags message, priority := tmpl.priority,
             status := "unread" } :: db)) := by
  constructor
  · intro h1 h2
    simp [create_notification, should_send_notification, h1, h2]
  · intro h
    simp [create_notification, should_send_notification, h]

set_option maxRecDepth 4000 in
/-- C8 witness: with promotions disabled, a promotion template
produces no record even though the write would succeed; a welcome
template produces the record for those same preferences. -/
theorem welcome_bypasses_preference_gating_c8_witness :
    create_notification [] 9 "Welcome!" "Hello" promoTemplate.priority
      (some promoTemplate) promoOffPrefs true = (none, []) ∧
    create_notification [] 9 "Welcome!" "Hello" welcomeTemplate.priority
      (some welcomeTemplate) promoOffPrefs true
      = (some { recipient := 9, title := "Welcome!", message := "Hello",
                priority := "normal", status := "unread" },
         [{ recipient := 9, title := "Welcome!", message := "Hello",
            priority := "normal", status := "unread" }]) := by
  have h1 := welcome_bypasses_preference_gating_c8 [] 9 "Welcome!" "Hello"
    promoTemplate promoOffPrefs true
  have h2 := welcome_bypasses_preference_gating_c8 [] 9 "Welcome!" "Hello"
    welcomeTemplate promoOffPrefs true
  refine ⟨h1.1 rfl rfl, ?_⟩
  rw [h2.2 rfl]
  rfl
